import Mathlib

/-!
Verification of the risk-prediction script `predictor.py` (LGB repository).

The script collects six clinical features through form widgets, evaluates a
pretrained binary classifier, stratifies the positive-class probability into
three risk tiers by percentile thresholds derived from a reference test set,
and reports the probability as a percentage together with a tier label and a
fixed advisory string.  We embed the decision logic shallowly: probabilities
and feature values are rationals, the model is an opaque function, and the
fallible steps (percentile of an empty sample, list indexing) return `Option`
or `Except`.
-/

/-- The six named features of one input row, in the order of `feature_names`
in `predictor.py` (Age, Hypertension, IMT, TyG index, Carotid plaque burden,
Plaque thickness). -/
structure FeatureVector where
  age : ℚ
  hypertension : ℚ
  imt : ℚ
  tygIndex : ℚ
  plaqueBurden : ℚ
  plaqueThickness : ℚ
  deriving DecidableEq, Repr

/-- The trained classifier `LGB.pkl`, opaque except for `predict_proba`,
which returns the pair `[P(class 0), P(class 1)]` for one row. -/
structure Model where
  predictProba : FeatureVector → ℚ × ℚ

/-- Positive-class probability of one row: `model.predict_proba(row)[1]`. -/
def posProbOf (m : Model) (v : FeatureVector) : ℚ :=
  (m.predictProba v).2

/-- The three risk tiers of the stratification block (lines 113-121). -/
inductive RiskTier where
  | low
  | moderate
  | high
  deriving DecidableEq, Repr

/-- Tier label strings of `risk_level` in the source. -/
def tierLabel : RiskTier → String
  | .low => "**🟢 LOW RISK**"
  | .moderate => "**🟡 MODERATE RISK**"
  | .high => "**🔴 HIGH RISK**"

/-- Advisory strings of `suggestion` in the source, one fixed string per tier. -/
def adviceFor : RiskTier → String
  | .low => "Please continue to maintain a healthy lifestyle and attend regular follow-up visits."
  | .moderate => "It is advised to monitor your condition closely and consider preventive interventions."
  | .high => "It is recommended to consult a physician promptly and take proactive medical measures."

/-- Tier assignment of lines 113-121: `p <= low_threshold` gives LOW,
otherwise `p <= mid_threshold` gives MODERATE, otherwise HIGH. -/
def riskLevel (p lo mid : ℚ) : RiskTier :=
  if p ≤ lo then .low
  else if p ≤ mid then .moderate
  else .high

/-- Round a rational to the nearest integer, ties to the even integer
(the rounding used by `pandas.DataFrame.round`, which follows IEEE
round-half-to-even). -/
def roundHalfEven (x : ℚ) : ℤ :=
  let n := ⌊x⌋
  let f := x - (n : ℚ)
  if f < 1/2 then n
  else if 1/2 < f then n + 1
  else if Even n then n else n + 1

/-- `input_data.round(2)` on one scalar: round to 2 decimal places. -/
def round2 (x : ℚ) : ℚ :=
  (roundHalfEven (100 * x) : ℚ) / 100

/-- `input_data.round(2)` on one row (line 91): every feature rounded. -/
def roundVec (v : FeatureVector) : FeatureVector where
  age := round2 v.age
  hypertension := round2 v.hypertension
  imt := round2 v.imt
  tygIndex := round2 v.tygIndex
  plaqueBurden := round2 v.plaqueBurden
  plaqueThickness := round2 v.plaqueThickness

/-- The `model_input` frame of lines 96-103: rebuilt field by field from the
rounded `input_data` row. -/
def modelInputOf (d : FeatureVector) : FeatureVector where
  age := d.age
  hypertension := d.hypertension
  imt := d.imt
  tygIndex := d.tygIndex
  plaqueBurden := d.plaqueBurden
  plaqueThickness := d.plaqueThickness

/-- Linear interpolation into the sorted sample at fractional index `h`,
as `numpy.percentile` does with its default method: with `i = ⌊h⌋` the value
is `s[i] + (h - i) * (s[min (i+1) (n-1)] - s[i])`. -/
def interpAt (s : List ℚ) (h : ℚ) : ℚ :=
  s.getD (⌊h⌋).toNat 0 +
    (h - ((⌊h⌋ : ℤ) : ℚ)) *
      (s.getD (min ((⌊h⌋).toNat + 1) (s.length - 1)) 0 - s.getD (⌊h⌋).toNat 0)

/-- `numpy.percentile(sample, q)` with the default linear method: sort the
sample ascending and interpolate at fractional index `q/100 * (n-1)`.
Undefined (`none`) on an empty sample, where numpy raises. -/
def npPercentile (sample : List ℚ) (q : ℚ) : Option ℚ :=
  match sample with
  | [] => none
  | _ =>
    let s := sample.insertionSort (· ≤ ·)
    some (interpAt s (q / 100 * ((sample.length : ℚ) - 1)))

/-- The percentile rank of the low cutoff (line 110). -/
def lowPercentileRank : ℚ := 5394 / 100

/-- The percentile rank of the mid cutoff (line 111). -/
def midPercentileRank : ℚ := 899 / 10

/-- `y_probs` of line 109: positive-class probabilities of the reference
rows. -/
def yProbs (m : Model) (ref : List FeatureVector) : List ℚ :=
  ref.map (posProbOf m)

/-- `low_threshold` of line 110. -/
def lowThreshold (m : Model) (ref : List FeatureVector) : Option ℚ :=
  npPercentile (yProbs m ref) lowPercentileRank

/-- `mid_threshold` of line 111. -/
def midThreshold (m : Model) (ref : List FeatureVector) : Option ℚ :=
  npPercentile (yProbs m ref) midPercentileRank

/-- Everything `classify` reports for one submission: the probability as a
percentage (`probability` of line 106), the positive-class probability driving
the tier comparison (`predicted_proba[1]`), the tier and its advisory string. -/
structure PredictionResult where
  probabilityPct : ℚ
  posProb : ℚ
  tier : RiskTier
  advice : String
  deriving DecidableEq, Repr

/-- Failure of the classification step: the reference sample was empty, so
the percentile thresholds are undefined (numpy raises there; the spec names
this `InsufficientDataError`). -/
inductive ClassifyError where
  | insufficientData
  deriving DecidableEq, Repr

/-- The `RiskClassifier.classify` procedure (lines 105-121): evaluate the
model on the input row, derive both percentile thresholds from the reference
rows, and assign the tier.  Fails when the reference sample is empty. -/
def classify (m : Model) (ref : List FeatureVector) (v : FeatureVector) :
    Except ClassifyError PredictionResult :=
  let p := posProbOf m v
  match lowThreshold m ref, midThreshold m ref with
  | some lo, some mid =>
      .ok { probabilityPct := p * 100
            posProb := p
            tier := riskLevel p lo mid
            advice := adviceFor (riskLevel p lo mid) }
  | _, _ => .error .insufficientData

/-- One submission of the form (lines 89-126): round the raw inputs to two
decimals, rebuild `model_input` field by field, then classify. -/
def runSubmission (m : Model) (xTest : List FeatureVector) (inputs : FeatureVector) :
    Except ClassifyError PredictionResult :=
  let input_data := roundVec inputs
  let model_input := modelInputOf input_data
  classify m xTest model_input

/-- The process-wide read-only state loaded at startup: the model and the
reference test set (lines 15-16). -/
structure AppState where
  model : Model
  xTest : List FeatureVector

/-- One submitted interaction of the app: the block under `if submitted:`
computes a result and rebinds no global, so the state passes through
unchanged. -/
def submitOnce (s : AppState) (v : FeatureVector) :
    Except ClassifyError PredictionResult × AppState :=
  (runSubmission s.model s.xTest v, s)

/-- A validation failure: the named feature's value left its declared
[min, max] domain (or, for Hypertension, the set {0, 1}). -/
structure ValidationError where
  feature : String
  value : ℚ
  lowBound : ℚ
  highBound : ℚ
  deriving DecidableEq, Repr

/-- Modelled from the spec: `InputValidator.validate`.  The script has no
explicit validation function; each form widget (lines 34-75) enforces its
domain, so out-of-domain values can never reach the model.  The spec
re-architects this as a `validate` call that fails with a `ValidationError`
carrying the feature, value and bound.  The domains are the widget
declarations of the source: Age in [ageMin, 100] where `ageMin` is the data
minimum, Hypertension in {0, 1}, IMT in [0, 1.5], TyG index in [0, 15],
Carotid plaque burden in [burdenMin, 15] where `burdenMin` is the data
minimum, Plaque thickness in [0, 7].  Features are checked in the order of
`feature_names`. -/
def validate (ageMin burdenMin : ℚ) (raw : FeatureVector) :
    Except ValidationError FeatureVector :=
  if raw.age < ageMin ∨ 100 < raw.age then
    .error ⟨"Age (years)", raw.age, ageMin, 100⟩
  else if ¬ (raw.hypertension = 0 ∨ raw.hypertension = 1) then
    .error ⟨"Hypertension", raw.hypertension, 0, 1⟩
  else if raw.imt < 0 ∨ 3/2 < raw.imt then
    .error ⟨"IMT (mm)", raw.imt, 0, 3/2⟩
  else if raw.tygIndex < 0 ∨ 15 < raw.tygIndex then
    .error ⟨"TyG index", raw.tygIndex, 0, 15⟩
  else if raw.plaqueBurden < burdenMin ∨ 15 < raw.plaqueBurden then
    .error ⟨"Carotid plaque burden", raw.plaqueBurden, burdenMin, 15⟩
  else if raw.plaqueThickness < 0 ∨ 7 < raw.plaqueThickness then
    .error ⟨"Plaque thickness (mm)", raw.plaqueThickness, 0, 7⟩
  else
    .ok raw

/-- The two output shapes of `explainer.shap_values(model_input)` together
with the matching `explainer.expected_value` (lines 131-139): a per-class
list of attribution vectors with a per-class list of base values, or a single
attribution vector with a scalar base value. -/
inductive ShapOutput where
  | perClass (vals : List (List ℚ)) (expected : List ℚ)
  | single (vals : List ℚ) (expected : ℚ)
  deriving DecidableEq, Repr

/-- The branch of lines 134-139: in the per-class-list case take index 1
(the positive class) of both the attribution list and the base-value list
(`none` when an index-1 access would raise); otherwise use the single array
and the scalar base value as they are. -/
def selectPositiveClass : ShapOutput → Option (List ℚ × ℚ)
  | .perClass vals expected =>
      match vals[1]?, expected[1]? with
      | some v, some e => some (v, e)
      | _, _ => none
  | .single vals expected => some (vals, expected)

/-- Adjacent-or-below entries of a sorted sample are ordered: `getD` at a
smaller in-range index is at most `getD` at a larger in-range index. -/
theorem sorted_getD_mono (s : List ℚ) (hs : List.Sorted (· ≤ ·) s) {i j : ℕ}
    (hij : i ≤ j) (hj : j < s.length) : s.getD i 0 ≤ s.getD j 0 := by
  have hi : i < s.length := Nat.lt_of_le_of_lt hij hj
  rw [List.getD_eq_getElem s 0 hi, List.getD_eq_getElem s 0 hj]
  rcases Nat.eq_or_lt_of_le hij with rfl | hlt
  · exact le_refl _
  · exact List.pairwise_iff_getElem.1 hs i j hi hj hlt

/-- A fractional index in `[0, n-1]` has its floor in `[0, n-1]`, and the
sample is nonempty. -/
theorem floor_index_le (s : List ℚ) {h : ℚ} (h0 : 0 ≤ h)
    (hub : h ≤ (s.length : ℚ) - 1) :
    (⌊h⌋).toNat ≤ s.length - 1 ∧ 1 ≤ s.length := by
  have hq : (1 : ℚ) ≤ (s.length : ℚ) := by linarith
  have hn : 1 ≤ s.length := by exact_mod_cast hq
  have hfl : ⌊h⌋ ≤ (s.length : ℤ) - 1 := by
    have h2 : h ≤ (((s.length : ℤ) - 1 : ℤ) : ℚ) := by push_cast; linarith
    have h3 := Int.floor_mono h2
    rwa [Int.floor_intCast] at h3
  exact ⟨by omega, hn⟩

/-- The interpolation step of `numpy.percentile` never goes below the sorted
entry at the floor index nor above the entry at the ceiling index. -/
theorem interpAt_bounds (s : List ℚ) (hs : List.Sorted (· ≤ ·) s) {h : ℚ}
    (h0 : 0 ≤ h) (hub : h ≤ (s.length : ℚ) - 1) :
    s.getD (⌊h⌋).toNat 0 ≤ interpAt s h ∧
      interpAt s h ≤ s.getD (min ((⌊h⌋).toNat + 1) (s.length - 1)) 0 := by
  obtain ⟨hiub, hn⟩ := floor_index_le s h0 hub
  have hfl0 : 0 ≤ ⌊h⌋ := Int.floor_nonneg.mpr h0
  have hfrac0 : 0 ≤ h - ((⌊h⌋ : ℤ) : ℚ) := sub_nonneg.mpr (Int.floor_le h)
  have hfrac1 : h - ((⌊h⌋ : ℤ) : ℚ) ≤ 1 := by
    have := Int.lt_floor_add_one h
    push_cast at this
    linarith
  have hij : (⌊h⌋).toNat ≤ min ((⌊h⌋).toNat + 1) (s.length - 1) := by omega
  have hjlt : min ((⌊h⌋).toNat + 1) (s.length - 1) < s.length := by omega
  have hd : s.getD (⌊h⌋).toNat 0 ≤ s.getD (min ((⌊h⌋).toNat + 1) (s.length - 1)) 0 :=
    sorted_getD_mono s hs hij hjlt
  constructor
  · have hprod : 0 ≤ (h - ((⌊h⌋ : ℤ) : ℚ)) *
        (s.getD (min ((⌊h⌋).toNat + 1) (s.length - 1)) 0 - s.getD (⌊h⌋).toNat 0) :=
      mul_nonneg hfrac0 (sub_nonneg.mpr hd)
    unfold interpAt
    linarith
  · have hprod : (h - ((⌊h⌋ : ℤ) : ℚ)) *
        (s.getD (min ((⌊h⌋).toNat + 1) (s.length - 1)) 0 - s.getD (⌊h⌋).toNat 0) ≤
        1 * (s.getD (min ((⌊h⌋).toNat + 1) (s.length - 1)) 0 - s.getD (⌊h⌋).toNat 0) :=
      mul_le_mul_of_nonneg_right hfrac1 (sub_nonneg.mpr hd)
    unfold interpAt
    linarith

/-- Linear interpolation into a sorted sample is monotone in the fractional
index. -/
theorem interpAt_mono (s : List ℚ) (hs : List.Sorted (· ≤ ·) s) {h1 h2 : ℚ}
    (h0 : 0 ≤ h1) (h12 : h1 ≤ h2) (hub : h2 ≤ (s.length : ℚ) - 1) :
    interpAt s h1 ≤ interpAt s h2 := by
  have h02 : 0 ≤ h2 := le_trans h0 h12
  have hub1 : h1 ≤ (s.length : ℚ) - 1 := le_trans h12 hub
  obtain ⟨hi2ub, hn⟩ := floor_index_le s h02 hub
  obtain ⟨hi1ub, -⟩ := floor_index_le s h0 hub1
  have hfl1 : 0 ≤ ⌊h1⌋ := Int.floor_nonneg.mpr h0
  have hfl2 : 0 ≤ ⌊h2⌋ := Int.floor_nonneg.mpr h02
  have hflle : ⌊h1⌋ ≤ ⌊h2⌋ := Int.floor_mono h12
  rcases eq_or_lt_of_le hflle with heq | hlt
  · have hij : (⌊h1⌋).toNat ≤ min ((⌊h1⌋).toNat + 1) (s.length - 1) := by omega
    have hjlt : min ((⌊h1⌋).toNat + 1) (s.length - 1) < s.length := by omega
    have hd : 0 ≤ s.getD (min ((⌊h1⌋).toNat + 1) (s.length - 1)) 0 -
        s.getD (⌊h1⌋).toNat 0 :=
      sub_nonneg.mpr (sorted_getD_mono s hs hij hjlt)
    have hstep : (h1 - ((⌊h1⌋ : ℤ) : ℚ)) *
        (s.getD (min ((⌊h1⌋).toNat + 1) (s.length - 1)) 0 - s.getD (⌊h1⌋).toNat 0) ≤
        (h2 - ((⌊h1⌋ : ℤ) : ℚ)) *
        (s.getD (min ((⌊h1⌋).toNat + 1) (s.length - 1)) 0 - s.getD (⌊h1⌋).toNat 0) :=
      mul_le_mul_of_nonneg_right (by linarith) hd
    unfold interpAt
    rw [← heq]
    linarith
  · have hnat : (⌊h1⌋).toNat + 1 ≤ (⌊h2⌋).toNat := by omega
    calc interpAt s h1
        ≤ s.getD (min ((⌊h1⌋).toNat + 1) (s.length - 1)) 0 :=
          (interpAt_bounds s hs h0 hub1).2
      _ ≤ s.getD (⌊h2⌋).toNat 0 := sorted_getD_mono s hs (by omega) (by omega)
      _ ≤ interpAt s h2 := (interpAt_bounds s hs h02 hub).1

/-- A concrete in-domain input row used to exercise the pipeline. -/
def demoVec : FeatureVector := ⟨50, 1, 1, 5, 3, 2⟩

/-- A concrete model that predicts probability 1/2 for every row. -/
def demoModel : Model := ⟨fun _ => (1/2, 1/2)⟩

/-- A one-row reference set. -/
def demoRef : List FeatureVector := [demoVec]

/-- The result `classify` produces on the demo model, reference set and row. -/
def demoResult : PredictionResult := ⟨50, 1/2, .low, adviceFor .low⟩

/-- An input row whose Hypertension value is 2, outside {0, 1}. -/
def demoRawHyp2 : FeatureVector := ⟨50, 2, 1, 5, 3, 2⟩

/-- An input row whose Age value is 150, above the widget maximum of 100. -/
def demoRawAge150 : FeatureVector := ⟨150, 1, 1, 5, 3, 2⟩

/-- A concrete per-class attribution list (two classes). -/
def demoShapVals : List (List ℚ) := [[1, 2], [3, 4]]

/-- A concrete per-class base-value list (two classes). -/
def demoExpected : List ℚ := [5, 6]

/-- `numpy.percentile` on a fixed nonempty sample is monotone in the
percentile rank, and defined. -/
theorem npPercentile_mono (sample : List ℚ) (hne : sample ≠ []) {q1 q2 : ℚ}
    (h0 : 0 ≤ q1) (h12 : q1 ≤ q2) (h100 : q2 ≤ 100) :
    ∃ a b, npPercentile sample q1 = some a ∧ npPercentile sample q2 = some b ∧
      a ≤ b := by
  rcases sample with _ | ⟨x, xs⟩
  · exact absurd rfl hne
  · have hred1 : npPercentile (x :: xs) q1 =
        some (interpAt ((x :: xs).insertionSort (· ≤ ·))
          (q1 / 100 * (((x :: xs).length : ℚ) - 1))) := rfl
    have hred2 : npPercentile (x :: xs) q2 =
        some (interpAt ((x :: xs).insertionSort (· ≤ ·))
          (q2 / 100 * (((x :: xs).length : ℚ) - 1))) := rfl
    refine ⟨_, _, hred1, hred2, ?_⟩
    have hlen : ((x :: xs).insertionSort (· ≤ ·)).length = (x :: xs).length :=
      List.length_insertionSort _ _
    have hn1 : (0 : ℚ) ≤ ((x :: xs).length : ℚ) - 1 := by
      rw [List.length_cons]
      push_cast
      have : (0 : ℚ) ≤ (xs.length : ℚ) := by positivity
      linarith
    apply interpAt_mono
    · exact List.sorted_insertionSort _ _
    · exact mul_nonneg (by linarith) hn1
    · exact mul_le_mul_of_nonneg_right (by linarith) hn1
    · rw [hlen]
      have : q2 / 100 * (((x :: xs).length : ℚ) - 1) ≤
          1 * (((x :: xs).length : ℚ) - 1) :=
        mul_le_mul_of_nonneg_right (by linarith) hn1
      linarith

/-- C1: with `low_cutoff ≤ mid_cutoff`, the tier assigned by the
stratification block is LOW iff `p ≤ low_cutoff`, MODERATE iff
`low_cutoff < p ≤ mid_cutoff`, and HIGH iff `p > mid_cutoff`; the three
conditions partition the probabilities, ties going to the lower tier. -/
theorem riskLevel_partition (p lo mid : ℚ) (h : lo ≤ mid) :
    (riskLevel p lo mid = .low ↔ p ≤ lo) ∧
    (riskLevel p lo mid = .moderate ↔ lo < p ∧ p ≤ mid) ∧
    (riskLevel p lo mid = .high ↔ mid < p) := by
  unfold riskLevel
  split_ifs with h1 h2 <;> refine ⟨?_, ?_, ?_⟩ <;> simp_all <;> linarith

/-- C1 witness: instantiation at `p = 1/2`, `low_cutoff = 1/3`,
`mid_cutoff = 2/3`. -/
theorem riskLevel_partition_witness :
    ((1 : ℚ)/3 ≤ 2/3) ∧
    ((riskLevel (1/2) (1/3) (2/3) = .low ↔ (1 : ℚ)/2 ≤ 1/3) ∧
      (riskLevel (1/2) (1/3) (2/3) = .moderate ↔
        (1 : ℚ)/3 < 1/2 ∧ (1 : ℚ)/2 ≤ 2/3) ∧
      (riskLevel (1/2) (1/3) (2/3) = .high ↔ (2 : ℚ)/3 < 1/2)) :=
  ⟨by norm_num, riskLevel_partition (1/2) (1/3) (2/3) (by norm_num)⟩

/-- C3: on an empty reference set, `classify` fails with the
insufficient-data error and produces no result. -/
theorem classify_empty_reference (m : Model) (v : FeatureVector) :
    classify m [] v = .error .insufficientData := rfl

/-- C6: one submission classifies exactly the row obtained by rounding every
raw feature to 2 decimal places, and every rounded value is an integer number
of hundredths. -/
theorem runSubmission_uses_rounded_inputs (m : Model) (xTest : List FeatureVector)
    (v : FeatureVector) :
    runSubmission m xTest v =
      classify m xTest
        ⟨round2 v.age, round2 v.hypertension, round2 v.imt, round2 v.tygIndex,
          round2 v.plaqueBurden, round2 v.plaqueThickness⟩ ∧
    ∀ x : ℚ, ∃ k : ℤ, round2 x = (k : ℚ) / 100 :=
  ⟨rfl, fun x => ⟨roundHalfEven (100 * x), rfl⟩⟩

/-- C8: a submitted interaction leaves the process-wide state (model and
reference set) unchanged, so an identical second submission produces an
identical result. -/
theorem submission_pure_no_state_drift (s : AppState) (v : FeatureVector) :
    (submitOnce s v).2 = s ∧
      (submitOnce (submitOnce s v).2 v).1 = (submitOnce s v).1 :=
  ⟨rfl, rfl⟩

/-- C2: for every model and nonempty reference set, both percentile
thresholds are defined and the low cutoff (53.94th percentile) is at most the
mid cutoff (89.9th percentile). -/
theorem thresholds_ordered (m : Model) (ref : List FeatureVector)
    (h : ref ≠ []) :
    (lowThreshold m ref).isSome ∧ (midThreshold m ref).isSome ∧
      (lowThreshold m ref).getD 0 ≤ (midThreshold m ref).getD 0 := by
  have hne : yProbs m ref ≠ [] := by
    intro hc
    exact h (List.map_eq_nil_iff.mp hc)
  obtain ⟨a, b, ha, hb, hab⟩ :=
    npPercentile_mono (yProbs m ref) hne
      (show (0 : ℚ) ≤ lowPercentileRank by norm_num [lowPercentileRank])
      (show lowPercentileRank ≤ midPercentileRank by
        norm_num [lowPercentileRank, midPercentileRank])
      (show midPercentileRank ≤ 100 by norm_num [midPercentileRank])
  unfold lowThreshold midThreshold
  rw [ha, hb]
  exact ⟨rfl, rfl, by simpa using hab⟩

/-- C2 witness: instantiation at the demo model and a one-row reference
set. -/
theorem thresholds_ordered_witness :
    demoRef ≠ [] ∧
    ((lowThreshold demoModel demoRef).isSome ∧
      (midThreshold demoModel demoRef).isSome ∧
      (lowThreshold demoModel demoRef).getD 0 ≤
        (midThreshold demoModel demoRef).getD 0) :=
  ⟨by simp [demoRef], thresholds_ordered demoModel demoRef (by simp [demoRef])⟩

/-- C4: a raw row whose Hypertension value is neither 0 nor 1 is rejected by
validation; no validated row is produced. -/
theorem validate_rejects_bad_hypertension (ageMin burdenMin : ℚ)
    (raw : FeatureVector) (h0 : raw.hypertension ≠ 0)
    (h1 : raw.hypertension ≠ 1) :
    (validate ageMin burdenMin raw).isOk = false := by
  unfold validate
  by_cases ha : raw.age < ageMin ∨ 100 < raw.age
  · rw [if_pos ha]
    rfl
  · rw [if_neg ha,
      if_pos (show ¬(raw.hypertension = 0 ∨ raw.hypertension = 1) from
        fun hc => hc.elim h0 h1)]
    rfl

/-- C4 witness: Hypertension 2 on an otherwise in-domain row is rejected. -/
theorem validate_rejects_bad_hypertension_witness :
    demoRawHyp2.hypertension ≠ 0 ∧ demoRawHyp2.hypertension ≠ 1 ∧
      (validate 18 0 demoRawHyp2).isOk = false :=
  ⟨by decide, by decide,
    validate_rejects_bad_hypertension 18 0 demoRawHyp2 (by decide) (by decide)⟩

/-- C5: a raw row whose Age exceeds the widget maximum of 100 is rejected by
validation; no validated row is produced. -/
theorem validate_rejects_age_over_max (ageMin burdenMin : ℚ)
    (raw : FeatureVector) (h : 100 < raw.age) :
    (validate ageMin burdenMin raw).isOk = false := by
  unfold validate
  rw [if_pos (Or.inr h)]
  rfl

/-- C5 witness: Age 150 on an otherwise in-domain row is rejected. -/
theorem validate_rejects_age_over_max_witness :
    100 < demoRawAge150.age ∧ (validate 18 0 demoRawAge150).isOk = false :=
  ⟨by decide, validate_rejects_age_over_max 18 0 demoRawAge150 (by decide)⟩


/-- On a one-element sample every percentile is that element. -/
theorem npPercentile_singleton (c q : ℚ) : npPercentile [c] q = some c := by
  show some (interpAt (([c] : List ℚ).insertionSort (· ≤ ·))
      (q / 100 * ((([c] : List ℚ).length : ℚ) - 1))) = some c
  have hs : ([c] : List ℚ).insertionSort (· ≤ ·) = [c] := rfl
  have hz : q / 100 * ((([c] : List ℚ).length : ℚ) - 1) = 0 := by
    simp
  rw [hs, hz]
  unfold interpAt
  norm_num

/-- The reference probabilities of the demo model on the demo reference
set. -/
theorem demo_yProbs : yProbs demoModel demoRef = [1/2] := rfl

/-- The low threshold of the demo configuration. -/
theorem demo_lowThreshold : lowThreshold demoModel demoRef = some (1/2) := by
  unfold lowThreshold
  rw [demo_yProbs]
  exact npPercentile_singleton _ _

/-- The mid threshold of the demo configuration. -/
theorem demo_midThreshold : midThreshold demoModel demoRef = some (1/2) := by
  unfold midThreshold
  rw [demo_yProbs]
  exact npPercentile_singleton _ _

/-- The demo probability ties with the low cutoff, so the tier is LOW. -/
theorem demo_riskLevel : riskLevel (1/2) (1/2) (1/2) = .low := by
  unfold riskLevel
  rw [if_pos le_rfl]

/-- `classify` on the demo configuration succeeds with the demo result. -/
theorem demo_classify : classify demoModel demoRef demoVec = .ok demoResult := by
  unfold classify
  rw [demo_lowThreshold, demo_midThreshold]
  show Except.ok
      ⟨posProbOf demoModel demoVec * 100, posProbOf demoModel demoVec,
        riskLevel (posProbOf demoModel demoVec) (1/2) (1/2),
        adviceFor (riskLevel (posProbOf demoModel demoVec) (1/2) (1/2))⟩ =
    Except.ok demoResult
  have hp : posProbOf demoModel demoVec = 1/2 := rfl
  rw [hp, demo_riskLevel]
  unfold demoResult
  norm_num

/-- C7: a successful classification reports the probability as the percentage
`p * 100` where `p` is the positive-class probability of the submitted row,
and an advisory string that is the fixed text of its tier. -/
theorem classify_reports_pct_and_fixed_advice (m : Model)
    (ref : List FeatureVector) (v : FeatureVector) (r : PredictionResult)
    (h : classify m ref v = .ok r) :
    r.probabilityPct = posProbOf m v * 100 ∧ r.advice = adviceFor r.tier := by
  unfold classify at h
  rcases hlo : lowThreshold m ref with _ | lo <;> rw [hlo] at h
  · exact absurd h (by simp)
  · rcases hmid : midThreshold m ref with _ | mid <;> rw [hmid] at h
    · exact absurd h (by simp)
    · injection h with h2
      subst h2
      exact ⟨rfl, rfl⟩

/-- C7 witness: instantiation at the demo model, reference set and row. -/
theorem classify_reports_pct_and_fixed_advice_witness :
    classify demoModel demoRef demoVec = .ok demoResult ∧
      (demoResult.probabilityPct = posProbOf demoModel demoVec * 100 ∧
        demoResult.advice = adviceFor demoResult.tier) :=
  ⟨demo_classify,
    classify_reports_pct_and_fixed_advice demoModel demoRef demoVec demoResult
      demo_classify⟩

/-- C9: the explanation step accepts both attribution shapes: on a per-class
list (of at least two classes) it selects the index-1 (positive-class)
attribution vector and base value, and on a single array it passes the array
and the scalar base value through. -/
theorem selectPositiveClass_shapes (vals : List (List ℚ)) (expected : List ℚ)
    (sv : List ℚ) (e : ℚ) (h1 : 2 ≤ vals.length) (h2 : 2 ≤ expected.length) :
    selectPositiveClass (.perClass vals expected) =
        some (vals.getD 1 [], expected.getD 1 0) ∧
      selectPositiveClass (.single sv e) = some (sv, e) := by
  have hv : vals[1]? = some (vals.getD 1 []) := by
    rw [List.getElem?_eq_getElem (by omega), List.getD_eq_getElem vals [] (by omega)]
  have he : expected[1]? = some (expected.getD 1 0) := by
    rw [List.getElem?_eq_getElem (by omega),
      List.getD_eq_getElem expected 0 (by omega)]
  constructor
  · show (match vals[1]?, expected[1]? with
      | some v, some e => some (v, e)
      | _, _ => none) = some (vals.getD 1 [], expected.getD 1 0)
    rw [hv, he]
  · rfl

/-- C9 witness: instantiation at concrete two-class attribution output and a
concrete single-array output. -/
theorem selectPositiveClass_shapes_witness :
    2 ≤ demoShapVals.length ∧ 2 ≤ demoExpected.length ∧
      (selectPositiveClass (.perClass demoShapVals demoExpected) =
          some (demoShapVals.getD 1 [], demoExpected.getD 1 0) ∧
        selectPositiveClass (.single [7] 8) = some ([7], 8)) :=
  ⟨by decide, by decide,
    selectPositiveClass_shapes demoShapVals demoExpected [7] 8 (by decide)
      (by decide)⟩

/-- C10: in one successful classification the displayed percentage is exactly
100 times the positive-class probability compared against the thresholds, and
the reported tier equals the tier of the displayed percentage divided by 100,
so the shown percentage and the shown tier cannot disagree. -/
theorem displayed_pct_and_tier_consistent (m : Model)
    (ref : List FeatureVector) (v : FeatureVector) (r : PredictionResult)
    (lo mid : ℚ) (h : classify m ref v = .ok r)
    (hlo : lowThreshold m ref = some lo)
    (hmid : midThreshold m ref = some mid) :
    r.probabilityPct = 100 * r.posProb ∧
      r.tier = riskLevel (r.probabilityPct / 100) lo mid := by
  unfold classify at h
  rw [hlo, hmid] at h
  injection h with h2
  subst h2
  constructor
  · exact mul_comm (posProbOf m v) 100
  · show riskLevel (posProbOf m v) lo mid =
      riskLevel (posProbOf m v * 100 / 100) lo mid
    rw [mul_div_cancel_right₀ _ (show (100 : ℚ) ≠ 0 by norm_num)]

/-- C10 witness: instantiation at the demo model, reference set and row. -/
theorem displayed_pct_and_tier_consistent_witness :
    classify demoModel demoRef demoVec = .ok demoResult ∧
      lowThreshold demoModel demoRef = some (1/2) ∧
      midThreshold demoModel demoRef = some (1/2) ∧
      (demoResult.probabilityPct = 100 * demoResult.posProb ∧
        demoResult.tier = riskLevel (demoResult.probabilityPct / 100) (1/2) (1/2)) :=
  ⟨demo_classify, demo_lowThreshold, demo_midThreshold,
    displayed_pct_and_tier_consistent demoModel demoRef demoVec demoResult
      (1/2) (1/2) demo_classify demo_lowThreshold demo_midThreshold⟩
